import Mathlib

/-!
Verification of the JIRA chatbot core (chatbot_core.py and mcp_client.py)
against its natural-language specification.

The Python code is shallowly embedded: strings are Lean `String`s, Python
`str` operations (`lower`, `upper`, `split`, `strip`, `in`, `startswith`,
`join`, `int(...)`) are modelled by executable Lean functions below, Python
`dict` payloads are association lists, float scores are rationals, the
remote transport is an explicit oracle `TransportCall → MCPResponse`, and a
Python exception escaping a function is an `Except.error`.
-/

/-! ## Python string primitives -/

/-- Python `str.lower()` (ASCII case mapping). -/
def lowerStr (s : String) : String := String.mk (s.data.map Char.toLower)

/-- Python `str.upper()` (ASCII case mapping). -/
def upperStr (s : String) : String := String.mk (s.data.map Char.toUpper)

/-- Membership of a character list as a contiguous run of another. -/
def subSeq (n : List Char) : List Char → Bool
  | [] => n.isEmpty
  | c :: t => n.isPrefixOf (c :: t) || subSeq n t

/-- Python `needle in hay` on strings (substring containment). -/
def pyIn (needle hay : String) : Bool := subSeq needle.data hay.data

/-- Python `str.startswith(p)`. -/
def pyStartsWith (s p : String) : Bool := p.data.isPrefixOf s.data

/-- Python `str.endswith(p)`. -/
def pyEndsWith (s p : String) : Bool := p.data.isSuffixOf s.data

/-- The whitespace characters recognised by Python `str.split()` /
`str.strip()` on ASCII input. -/
def isWsChar (c : Char) : Bool :=
  c = ' ' || c = '\t' || c = '\n' || c = '\r' || c = '\x0b' || c = '\x0c'

/-- Helper for `splitWs`: accumulates the current word (reversed). -/
def splitWsAux : List Char → List Char → List String
  | [], acc => if acc.isEmpty then [] else [String.mk acc.reverse]
  | c :: cs, acc =>
    if isWsChar c then
      (if acc.isEmpty then [] else [String.mk acc.reverse]) ++ splitWsAux cs []
    else
      splitWsAux cs (c :: acc)

/-- Python `str.split()` with no argument: split on whitespace runs,
dropping empty fields. -/
def splitWs (s : String) : List String := splitWsAux s.data []

/-- Drop leading whitespace from a character list. -/
def dropWsLeft : List Char → List Char
  | [] => []
  | c :: cs => if isWsChar c then dropWsLeft cs else c :: cs

/-- Python `str.strip()`. -/
def pyStrip (s : String) : String :=
  String.mk (dropWsLeft (dropWsLeft s.data.reverse).reverse)

/-- Python `sep.join(parts)`. -/
def pyJoin (sep : String) : List String → String
  | [] => ""
  | [x] => x
  | x :: y :: rest => x ++ sep ++ pyJoin sep (y :: rest)

/-- Python slicing `s[n:]` by code points. -/
def strDrop (s : String) (n : Nat) : String := String.mk (s.data.drop n)

/-- Scanner for `pySplitOn`: `acc` is the current chunk (reversed) and the
counter is the number of separator characters still to be consumed after a
match. -/
def splitOnGo (sep : List Char) : List Char → List Char → Nat → List String
  | [], acc, _ => [String.mk acc.reverse]
  | c :: cs, acc, 0 =>
    if sep.isPrefixOf (c :: cs) then
      String.mk acc.reverse :: splitOnGo sep cs [] (sep.length - 1)
    else
      splitOnGo sep cs (c :: acc) 0
  | _ :: cs, acc, k + 1 => splitOnGo sep cs acc k

/-- Python `s.split(sep)` for a non-empty separator: the chunks between
leftmost non-overlapping occurrences of `sep`. -/
def pySplitOn (s sep : String) : List String := splitOnGo sep.data s.data [] 0

/-- Numeric value of a list of ASCII digits. -/
def digitsVal (l : List Char) : Nat :=
  l.foldl (fun acc c => 10 * acc + (c.toNat - '0'.toNat)) 0

/-- Python `str.isdigit()` restricted to ASCII digits. -/
def pyIsDigit (s : String) : Bool := !s.data.isEmpty && s.data.all Char.isDigit

/-- Python `int(word)` on a whitespace-free token: optional sign followed
by one or more ASCII digits, `none` when a `ValueError` would be raised. -/
def pyToIntOpt (s : String) : Option Int :=
  match s.data with
  | '-' :: rest =>
    if !rest.isEmpty && rest.all Char.isDigit then some (-(digitsVal rest : Int)) else none
  | '+' :: rest =>
    if !rest.isEmpty && rest.all Char.isDigit then some (digitsVal rest : Int) else none
  | l => if !l.isEmpty && l.all Char.isDigit then some (digitsVal l : Int) else none

/-- Python truthiness of an optional string (`None` and `""` are falsy). -/
def truthyOptStr : Option String → Bool
  | none => false
  | some s => s != ""

/-- Python truthiness of an optional integer (`None` and `0` are falsy). -/
def truthyOptInt : Option Int → Bool
  | none => false
  | some n => n != 0


/-! ## IntentClassifier (chatbot_core.py, class IntentClassifier) -/

/-- The fixed label-to-keywords table `IntentClassifier.intent_keywords`,
in source (dict insertion) order. -/
def intentKeywords : List (String × List String) :=
  [("epic", ["epic", "epics", "epic-", "large story", "feature"]),
   ("sprint", ["sprint", "sprints", "iteration", "sprint planning", "agile"]),
   ("issue", ["issue", "issues", "task", "story", "bug", "ticket"]),
   ("create", ["create", "add", "new", "make", "generate"]),
   ("list", ["list", "show", "display", "get all", "find all"]),
   ("get", ["get", "find", "search", "retrieve", "fetch"]),
   ("update", ["update", "modify", "change", "edit", "alter"]),
   ("delete", ["delete", "remove", "cancel", "archive"]),
   ("help", ["help", "how", "what", "explain", "guide", "tutorial"])]

/-- Matched-keyword count of one label against the lowered query `ql`. -/
def scoreOf (ql : String) (kws : List String) : Nat :=
  (kws.filter (fun k => pyIn k ql)).length

/-- The classifier loop over a (sub)table, for the lowered query `ql`. -/
def classifyAux (ql : String) : List (String × List String) → List (String × ℚ)
  | [] => []
  | (intent, kws) :: rest =>
    (if 0 < scoreOf ql kws then
      [(intent, (scoreOf ql kws : ℚ) / (kws.length : ℚ))]
    else []) ++ classifyAux ql rest

/-- `IntentClassifier.classify_intent`: lower the query, score every label,
emit `score / len(keywords)` for labels with positive score. -/
def classifyIntent (q : String) : List (String × ℚ) :=
  classifyAux (lowerStr q) intentKeywords

/-! ## Conversation store (chatbot_core.py, class ChatbotCore) -/

/-- The metadata dict `ChatbotCore.process_query` attaches to a response
and to the stored assistant message. -/
structure RespMeta where
  intents : List (String × ℚ)
  hasExternalContext : Bool
  deriving Repr, DecidableEq

/-- Dataclass `ChatMessage`. -/
structure ChatMessage where
  role : String
  content : String
  timestamp : String
  metadata : Option RespMeta
  deriving Repr, DecidableEq

/-- Dataclass `ChatResponse` (the response envelope). -/
structure ChatResponse where
  message : String
  confidence : ℚ
  sources : List String
  metadata : Option RespMeta
  deriving Repr, DecidableEq

/-- `ChatbotCore.max_history`. -/
def maxHistory : Nat := 10

/-- `ChatbotCore.add_message`: append, then keep only the last
`max_history` entries (`history[-10:]`). -/
def addMessage (hist : List ChatMessage) (m : ChatMessage) : List ChatMessage :=
  let h := hist ++ [m]
  if maxHistory < h.length then h.drop (h.length - maxHistory) else h

/-- `ChatbotCore.get_conversation_context`: the last 5 messages rendered
as `"role: content"` lines joined by newlines; `""` on an empty log. -/
def getConversationContext (hist : List ChatMessage) : String :=
  if hist.isEmpty then ""
  else
    pyJoin "\n" ((hist.drop (hist.length - 5)).map (fun m => m.role ++ ": " ++ m.content))

/-! ## LocalLLM (chatbot_core.py, class LocalLLM) -/

/-- `LocalLLM._generate_fallback_response`: the canned rule-based texts. -/
def fallbackResponse (prompt : String) : String :=
  let pl := lowerStr prompt
  if pyIn "epic" pl || pyIn "epics" pl then
    "I can help you with Epic-related questions. Epics are large pieces of work that can be broken down into smaller tasks. You can create, view, and manage epics in Jira Software Cloud."
  else if pyIn "sprint" pl || pyIn "sprints" pl then
    "I can help you with Sprint-related questions. Sprints are time-boxed iterations in Agile development, typically lasting 1-4 weeks. You can create, manage, and track sprints in Jira Software Cloud."
  else if pyIn "create" pl || pyIn "add" pl || pyIn "new" pl then
    "I can help you create new items in Jira. Whether you need to create epics, sprints, or issues, I can guide you through the process."
  else if pyIn "how" pl || pyIn "what" pl || pyIn "where" pl || pyIn "when" pl || pyIn "why" pl then
    "I can help you understand how to use Jira Software Cloud. Please ask me a specific question about epics, sprints, or any other Jira features."
  else
    "I\x27m here to help you with Jira Software Cloud. I can assist with questions about epics, sprints, issues, and other Jira features. What would you like to know?"

/-- `LocalLLM._format_prompt`. -/
def formatPrompt (userInput context : String) : String :=
  if context = "" then
    "You are a helpful Jira customer support chatbot. Answer the user\x27s question about Jira Software Cloud:\n\nUser: " ++ userInput ++ "\n\nAssistant:"
  else
    "You are a helpful Jira customer support chatbot. Use the following context to answer the user\x27s question:\n\nContext: " ++ context ++ "\n\nUser: " ++ userInput ++ "\n\nAssistant:"

/-- Replace every run of characters satisfying `p` by a single `rep`
(the effect of `re.sub(pattern+, rep, s)` for a character class). -/
def collapseRuns (p : Char → Bool) (rep : Char) : List Char → List Char
  | [] => []
  | [c] => if p c then [rep] else [c]
  | c :: c2 :: cs =>
    if p c && p c2 then collapseRuns p rep (c2 :: cs)
    else (if p c then rep else c) :: collapseRuns p rep (c2 :: cs)

/-- `LocalLLM._clean_response`: drop a trailing incomplete sentence,
re-join, ensure a final period, collapse newline and whitespace runs,
strip. -/
def cleanResponse (r : String) : String :=
  let sentences := pySplitOn r ". "
  let sentences2 :=
    if !sentences.isEmpty && !pyEndsWith (sentences.getLastD "") "." then
      sentences.dropLast
    else sentences
  let cleaned := pyJoin ". " sentences2
  let cleaned2 :=
    if cleaned = "" then cleaned
    else if pyEndsWith cleaned "." then cleaned
    else cleaned ++ "."
  let c3 := String.mk (collapseRuns (fun c => c = '\n') ' ' cleaned2.data)
  let c4 := String.mk (collapseRuns isWsChar ' ' c3.data)
  pyStrip c4

/-- `LocalLLM.generate_response`.  `pipelineOk` models whether the model
pipeline loaded; `gen` is the text-generation oracle, returning
`Except.error` when the pipeline call raises.  Exceptions are caught and,
like an empty cleaned output, replaced by the rule-based fallback. -/
def generateResponse (pipelineOk : Bool) (gen : String → Except String String)
    (prompt context : String) : String :=
  if !pipelineOk then fallbackResponse prompt
  else
    let fullPrompt := formatPrompt prompt context
    match gen fullPrompt with
    | Except.error _ => fallbackResponse prompt
    | Except.ok generated =>
      let responseText :=
        if pyStartsWith generated fullPrompt then
          pyStrip (strDrop generated fullPrompt.length)
        else pyStrip generated
      let cleaned := cleanResponse responseText
      if cleaned = "" then fallbackResponse prompt else cleaned

/-! ## ChatbotCore.process_query -/

/-- Python `max(d.values())` over the score map (the map is nonempty in
the caller; on `[]` this returns the 0.5 of the else-branch in the
caller). -/
def maxScore : List (String × ℚ) → ℚ
  | [] => 1 / 2
  | p :: ps => ps.foldl (fun acc q => max acc q.2) p.2

/-- The full generation context assembled by `process_query`: recent
conversation (after the user turn is appended) plus the external context
when the latter is truthy. -/
def fullContextOf (hist : List ChatMessage) (userInput : String)
    (externalContext : Option String) (ts1 : String) : String :=
  let hist1 := addMessage hist ⟨"user", userInput, ts1, none⟩
  let conversationContext := getConversationContext hist1
  match externalContext with
  | some ec =>
    if ec = "" then conversationContext
    else conversationContext ++ "\n\nAdditional Context: " ++ ec
  | none => conversationContext

/-- `ChatbotCore.process_query`: append the user turn, classify, build the
context, generate (with fallback), assemble the envelope, append the
assistant turn.  `ts1`/`ts2` stand for the two wall-clock timestamps. -/
def processQuery (pipelineOk : Bool) (gen : String → Except String String)
    (hist : List ChatMessage) (userInput : String) (externalContext : Option String)
    (ts1 ts2 : String) : ChatResponse × List ChatMessage :=
  let hist1 := addMessage hist ⟨"user", userInput, ts1, none⟩
  let intents := classifyIntent userInput
  let fullContext := fullContextOf hist userInput externalContext ts1
  let responseText := generateResponse pipelineOk gen userInput fullContext
  let confidence := if intents.isEmpty then 1 / 2 else maxScore intents
  let ecTruthy := match externalContext with
    | some ec => ec != ""
    | none => false
  let sources :=
    (if ecTruthy then ["external_data"] else []) ++
    (if !intents.isEmpty then intents.map (fun p => "intent_" ++ p.1) else [])
  let meta : RespMeta := ⟨intents, externalContext.isSome⟩
  let response : ChatResponse := ⟨responseText, confidence, sources, some meta⟩
  let hist2 := addMessage hist1 ⟨"assistant", responseText, ts2, some meta⟩
  (response, hist2)

/-! ## Transport layer (mcp_client.py, class JiraMCPClient)

The remote Jira API is an external collaborator: it is modelled as an
oracle mapping each `JiraMCPClient` call the manager can make to an
`MCPResponse`.  `_make_request` already catches every transport exception
and returns `MCPResponse(success=False, ...)`, so the oracle is total.
Response payloads (`response.data`) are Python dicts whose values the
handlers read as lists; they are modelled as association lists from keys
to lists of opaque items. -/

/-- A call the `MCPManager` handlers can issue through `JiraMCPClient`. -/
inductive TransportCall where
  | getEpics (projectKey : Option String)
  | getEpic (epicKey : String)
  | createEpic (projectKey summary description : String)
  | getSprints (boardId : Option Int)
  | getSprint (sprintId : Int)
  | createSprint (name : String) (boardId : Int)
  deriving Repr, DecidableEq

/-- Dataclass `MCPResponse`; `data` is the optional JSON-dict payload. -/
structure MCPResponse (Item : Type) where
  success : Bool
  data : Option (List (String × List Item))
  error : Option String
  deriving Repr, DecidableEq

/-- The transport oracle. -/
def Transport (Item : Type) := TransportCall → MCPResponse Item

/-- Python truthiness of `response.data` (`None` and `{}` are falsy). -/
def dataTruthy {Item : Type} : Option (List (String × List Item)) → Bool
  | none => false
  | some d => !d.isEmpty

/-- Python `d.get(key, [])` on the modelled dict. -/
def dictGetList {Item : Type} (d : List (String × List Item)) (key : String) : List Item :=
  match d.lookup key with
  | some v => v
  | none => []

/-- Rendering of `response.error` inside an f-string (`None` prints as
`"None"`). -/
def errText : Option String → String
  | none => "None"
  | some e => e

/-- The payload slot of a handler result dict: list handlers store the
extracted collection, get/create handlers store `response.data` itself. -/
inductive HData (Item : Type) where
  | items : List Item → HData Item
  | dict : Option (List (String × List Item)) → HData Item
  deriving Repr, DecidableEq

/-- A handler result dict.  `ok ty data msg` is
`{"source": "mcp", "type": ty, "data": data, "message": msg}`;
`err e msg` is `{"source": "mcp_error", "error": e, "message": msg}`. -/
inductive HandlerResult (Item : Type) where
  | ok : String → HData Item → String → HandlerResult Item
  | err : Option String → String → HandlerResult Item
  deriving Repr, DecidableEq

/-- Whether a handler result is the `"mcp_error"` (Failure) shape. -/
def HandlerResult.isErr {Item : Type} : HandlerResult Item → Bool
  | .ok _ _ _ => false
  | .err _ _ => true

/-! ## MCPManager handlers (mcp_client.py, class MCPManager)

Each handler returns its result dict together with the list of transport
calls it performed, and is wrapped in `Except` when a Python exception can
escape it. -/

/-- `MCPManager._handle_list_epics`. -/
def handleListEpics {Item : Type} (tr : Transport Item) (_q : String) :
    HandlerResult Item × List TransportCall :=
  let resp := tr (.getEpics none)
  if resp.success && dataTruthy resp.data then
    let epics := dictGetList (resp.data.getD []) "issues"
    (.ok "epic_list" (.items epics) ("Found " ++ toString epics.length ++ " epics"),
     [.getEpics none])
  else
    (.err resp.error "Failed to retrieve epics", [.getEpics none])

/-- `MCPManager._handle_list_sprints`. -/
def handleListSprints {Item : Type} (tr : Transport Item) (_q : String) :
    HandlerResult Item × List TransportCall :=
  let resp := tr (.getSprints none)
  if resp.success && dataTruthy resp.data then
    let sprints := dictGetList (resp.data.getD []) "values"
    (.ok "sprint_list" (.items sprints) ("Found " ++ toString sprints.length ++ " sprints"),
     [.getSprints none])
  else
    (.err resp.error "Failed to retrieve sprints", [.getSprints none])

/-- The epic-key scan of `_handle_get_epic`: the first whitespace token
whose uppercasing starts with `"EPIC-"` or `"PROJ-"`, uppercased. -/
def epicKeyOf (q : String) : Option String :=
  ((splitWs q).find? (fun w =>
    pyStartsWith (upperStr w) "EPIC-" || pyStartsWith (upperStr w) "PROJ-")).map upperStr

/-- `MCPManager._handle_get_epic`. -/
def handleGetEpic {Item : Type} (tr : Transport Item) (q : String) :
    HandlerResult Item × List TransportCall :=
  match epicKeyOf q with
  | none =>
    (.err (some "No epic key found in query") "Please specify an epic key (e.g., EPIC-123)", [])
  | some k =>
    let resp := tr (.getEpic k)
    if resp.success then
      (.ok "epic_detail" (.dict resp.data) ("Retrieved epic " ++ k), [.getEpic k])
    else
      (.err resp.error ("Failed to retrieve epic " ++ k), [.getEpic k])

/-- The `"project <KEY>"` scan of `_handle_create_epic`: the token after
the first occurrence of the word `project` (uppercased). -/
def nextAfterMarker (marker : String) : List String → Option String
  | [] => none
  | [_] => none
  | w :: w2 :: rest =>
    if lowerStr w = marker then some w2 else nextAfterMarker marker (w2 :: rest)

/-- The `"in <KEY>"` scan of `_handle_create_epic`: the first token that
follows a word `in` and, uppercased, contains a letter and has length at
most 10.  Unlike the `project` scan this one keeps scanning when the
candidate fails the shape check. -/
def inCandidate : List String → Option String
  | [] => none
  | [_] => none
  | w :: w2 :: rest =>
    if lowerStr w = "in" then
      let pot := upperStr w2
      if pot.data.any Char.isAlpha && pot.length ≤ 10 then some pot
      else inCandidate (w2 :: rest)
    else inCandidate (w2 :: rest)

/-- The summary scan of `_handle_create_epic`: everything after the first
word in the marker set (`title`/`summary`/`name`), joined by spaces. -/
def joinAfterMarkerSet (markers : List String) : List String → Option String
  | [] => none
  | [_] => none
  | w :: w2 :: rest =>
    if markers.contains (lowerStr w) then some (pyJoin " " (w2 :: rest))
    else joinAfterMarkerSet markers (w2 :: rest)

/-- Project-key extraction of `_handle_create_epic`: the `project` marker
strategy, then (only on its failure) the `in` marker strategy, each behind
its substring guard. -/
def epicMarkerPK (q : String) : Option String :=
  let first :=
    if pyIn "project" (lowerStr q) then (nextAfterMarker "project" (splitWs q)).map upperStr
    else none
  match first with
  | some k => some k
  | none => if pyIn "in" (lowerStr q) then inCandidate (splitWs q) else none

/-- Summary extraction of `_handle_create_epic`: the
`title`/`summary`/`name` marker strategy behind its substring guard. -/
def epicMarkerSummary (q : String) : Option String :=
  if pyIn "title" (lowerStr q) || pyIn "summary" (lowerStr q) || pyIn "name" (lowerStr q) then
    joinAfterMarkerSet ["title", "summary", "name"] (splitWs q)
  else none

/-- The shared last-resort extraction of `_handle_create_epic`: split the
original-cased query on the literal `"create epic"`, take the text after
the first occurrence, and read it as `KEY summary...`.  Indexing `[1]`
raises `IndexError` when the original-cased query has no such literal
occurrence (even though the lowered query passed the guard). -/
def epicSplitFallback (q : String) (pk sm : Option String) :
    Except String (Option String × Option String) :=
  if pyIn "create epic" (lowerStr q) then
    match pySplitOn q "create epic" with
    | _ :: second :: _ =>
      match splitWs (pyStrip second) with
      | p0 :: p1 :: rest => Except.ok (some (upperStr p0), some (pyJoin " " (p1 :: rest)))
      | _ => Except.ok (pk, sm)
    | _ => Except.error "IndexError: list index out of range"
  else Except.ok (pk, sm)

/-- The whole parameter extraction of `_handle_create_epic`: independent
marker scans per field, then the shared split fallback when (and only
when) both fields are still falsy. -/
def extractEpicParams (q : String) : Except String (Option String × Option String) :=
  let pk := epicMarkerPK q
  let sm := epicMarkerSummary q
  if !truthyOptStr pk && !truthyOptStr sm then epicSplitFallback q pk sm
  else Except.ok (pk, sm)

/-- `MCPManager._handle_create_epic`. -/
def handleCreateEpic {Item : Type} (tr : Transport Item) (q : String) :
    Except String (HandlerResult Item × List TransportCall) :=
  match extractEpicParams q with
  | Except.error e => Except.error e
  | Except.ok (pk, sm) =>
    if !truthyOptStr pk then
      Except.ok (.err (some "Project key required")
        "To create an epic, please specify a project key. Example: \x27Create epic in PROJECT-123 with title My Epic\x27", [])
    else if !truthyOptStr sm then
      Except.ok (.err (some "Epic summary required")
        "To create an epic, please provide a summary/title. Example: \x27Create epic in PROJECT-123 with title My Epic\x27", [])
    else
      let pkv := pk.getD ""
      let smv := sm.getD ""
      let resp := tr (.createEpic pkv smv "")
      if resp.success then
        Except.ok (.ok "epic_created" (.dict resp.data)
          ("Successfully created epic in project " ++ pkv), [.createEpic pkv smv ""])
      else
        Except.ok (.err resp.error ("Failed to create epic: " ++ errText resp.error),
          [.createEpic pkv smv ""])

/-- `MCPManager._handle_update_epic`: a constant Failure, no transport. -/
def handleUpdateEpic {Item : Type} (_q : String) :
    HandlerResult Item × List TransportCall :=
  (.err (some "Epic update requires additional parameters")
    "To update an epic, please provide: epic key and fields to update", [])

/-- Sprint-name inner loop of `_handle_create_sprint`: collect the words
after `named` up to (excluding) a word `in` immediately followed by
`board`. -/
def takeUntilInBoard : List String → List String
  | [] => []
  | w :: rest =>
    if lowerStr w = "in" && (match rest with
        | r1 :: _ => lowerStr r1 = "board"
        | [] => false) then []
    else w :: takeUntilInBoard rest

/-- Sprint-name scan of `_handle_create_sprint`: after the first word
`named` (with a successor), join the words up to an `in board` marker.
The join can be empty, which Python later treats as falsy. -/
def sprintNameScan : List String → Option String
  | [] => none
  | [_] => none
  | w :: w2 :: rest =>
    if lowerStr w = "named" then some (pyJoin " " (takeUntilInBoard (w2 :: rest)))
    else sprintNameScan (w2 :: rest)

/-- Board-id scan of `_handle_create_sprint`: the first successor of a
word `board` that parses as an int (`ValueError` continues the scan). -/
def boardIdAfter : List String → Option Int
  | [] => none
  | [_] => none
  | w :: w2 :: rest =>
    if lowerStr w = "board" then
      match pyToIntOpt w2 with
      | some n => some n
      | none => boardIdAfter (w2 :: rest)
    else boardIdAfter (w2 :: rest)

/-- `"in board <ID>"` scan of `_handle_create_sprint`. -/
def inBoardIdAfter : List String → Option Int
  | w :: w2 :: w3 :: rest =>
    if lowerStr w = "in" && lowerStr w2 = "board" then
      match pyToIntOpt w3 with
      | some n => some n
      | none => inBoardIdAfter (w2 :: w3 :: rest)
    else inBoardIdAfter (w2 :: w3 :: rest)
  | _ => none

/-- Sprint-name extraction of `_handle_create_sprint` (the `named` marker
strategy behind its substring guard). -/
def sprintMarkerName (q : String) : Option String :=
  if pyIn "named" (lowerStr q) then sprintNameScan (splitWs q) else none

/-- Board-id extraction of `_handle_create_sprint`: the `board <ID>`
strategy, then (only on its falsiness) the `in board <ID>` strategy. -/
def sprintMarkerBoard (q : String) : Option Int :=
  let first := if pyIn "board" (lowerStr q) then boardIdAfter (splitWs q) else none
  if truthyOptInt first then first
  else if pyIn "in" (lowerStr q) then
    match inBoardIdAfter (splitWs q) with
    | some n => some n
    | none => first
  else first

/-- The shared last-resort extraction of `_handle_create_sprint`: split
the original-cased query on the literal `"create sprint"` and read the
text after the first occurrence as `BOARD name...` (or all of it as the
name when the first token is not an int).  As for epics, indexing `[1]`
raises `IndexError` when the original-cased query has no literal
occurrence. -/
def sprintSplitFallback (q : String) (nm : Option String) (bd : Option Int) :
    Except String (Option String × Option Int) :=
  if pyIn "create sprint" (lowerStr q) then
    match pySplitOn q "create sprint" with
    | _ :: second :: _ =>
      match splitWs (pyStrip second) with
      | p0 :: p1 :: rest =>
        match pyToIntOpt p0 with
        | some n => Except.ok (some (pyJoin " " (p1 :: rest)), some n)
        | none => Except.ok (some (pyJoin " " (p0 :: p1 :: rest)), bd)
      | _ => Except.ok (nm, bd)
    | _ => Except.error "IndexError: list index out of range"
  else Except.ok (nm, bd)

/-- The whole parameter extraction of `_handle_create_sprint`. -/
def extractSprintParams (q : String) : Except String (Option String × Option Int) :=
  let nm := sprintMarkerName q
  let bd := sprintMarkerBoard q
  if !truthyOptStr nm && !truthyOptInt bd then sprintSplitFallback q nm bd
  else Except.ok (nm, bd)

/-- `MCPManager._handle_create_sprint`. -/
def handleCreateSprint {Item : Type} (tr : Transport Item) (q : String) :
    Except String (HandlerResult Item × List TransportCall) :=
  match extractSprintParams q with
  | Except.error e => Except.error e
  | Except.ok (nm, bd) =>
    if !truthyOptStr nm then
      Except.ok (.err (some "Sprint name required")
        "To create a sprint, please provide a name. Example: \x27Create sprint named Sprint 1\x27", [])
    else if !truthyOptInt bd then
      Except.ok (.err (some "Board ID required")
        "To create a sprint, please provide a board ID. Example: \x27Create sprint in board 123 named Sprint 1\x27", [])
    else
      let nmv := nm.getD ""
      let bdv := bd.getD 0
      let resp := tr (.createSprint nmv bdv)
      if resp.success then
        Except.ok (.ok "sprint_created" (.dict resp.data)
          ("Successfully created sprint \x27" ++ nmv ++ "\x27 in board " ++ toString bdv),
          [.createSprint nmv bdv])
      else
        Except.ok (.err resp.error ("Failed to create sprint: " ++ errText resp.error),
          [.createSprint nmv bdv])

/-- Sprint-id scan of `_handle_get_sprint`: the first all-digit token. -/
def sprintIdOf (q : String) : Option Int :=
  ((splitWs q).find? pyIsDigit).map (fun w => (digitsVal w.data : Int))

/-- `MCPManager._handle_get_sprint` (`if not sprint_id` also treats an
extracted id 0 as missing). -/
def handleGetSprint {Item : Type} (tr : Transport Item) (q : String) :
    HandlerResult Item × List TransportCall :=
  let sid := sprintIdOf q
  if !truthyOptInt sid then
    (.err (some "No sprint ID found in query") "Please specify a sprint ID", [])
  else
    let sv := sid.getD 0
    let resp := tr (.getSprint sv)
    if resp.success then
      (.ok "sprint_detail" (.dict resp.data) ("Retrieved sprint " ++ toString sv), [.getSprint sv])
    else
      (.err resp.error ("Failed to retrieve sprint " ++ toString sv), [.getSprint sv])

/-- `MCPManager._handle_update_sprint`: a constant Failure, no transport. -/
def handleUpdateSprint {Item : Type} (_q : String) :
    HandlerResult Item × List TransportCall :=
  (.err (some "Sprint update requires additional parameters")
    "To update a sprint, please provide: sprint ID and fields to update", [])

/-! ## Verb routing (MCPManager.handle_epic_query / handle_sprint_query) -/

/-- `MCPManager.handle_epic_query`: the if/elif verb chain of the source,
then the chosen handler. -/
def handleEpicQuery {Item : Type} (tr : Transport Item) (q : String) :
    Except String (HandlerResult Item × List TransportCall) :=
  let ql := lowerStr q
  if pyIn "list" ql || pyIn "show" ql || pyIn "get all" ql then
    Except.ok (handleListEpics tr q)
  else if pyIn "create" ql || pyIn "add" ql || pyIn "new" ql then
    handleCreateEpic tr q
  else if pyIn "update" ql || pyIn "modify" ql || pyIn "change" ql then
    Except.ok (handleUpdateEpic q)
  else
    Except.ok (handleGetEpic tr q)

/-- `MCPManager.handle_sprint_query`. -/
def handleSprintQuery {Item : Type} (tr : Transport Item) (q : String) :
    Except String (HandlerResult Item × List TransportCall) :=
  let ql := lowerStr q
  if pyIn "list" ql || pyIn "show" ql || pyIn "get all" ql then
    Except.ok (handleListSprints tr q)
  else if pyIn "create" ql || pyIn "add" ql || pyIn "new" ql then
    handleCreateSprint tr q
  else if pyIn "update" ql || pyIn "modify" ql || pyIn "change" ql then
    Except.ok (handleUpdateSprint q)
  else
    Except.ok (handleGetSprint tr q)

/-- The verb classification described by the routing contract: a fixed
keyword precedence list > create > update > default get, by
case-insensitive substring membership. -/
inductive Verb where
  | list | create | update | get
  deriving Repr, DecidableEq

/-- The routing verb of a query under the documented precedence. -/
def routedVerb (q : String) : Verb :=
  let ql := lowerStr q
  if pyIn "list" ql || pyIn "show" ql || pyIn "get all" ql then .list
  else if pyIn "create" ql || pyIn "add" ql || pyIn "new" ql then .create
  else if pyIn "update" ql || pyIn "modify" ql || pyIn "change" ql then .update
  else .get

/-! ## Concrete collaborators used by the witness theorems -/

/-- A transport oracle that fails every call. -/
def trNone : Transport Nat := fun _ => ⟨false, none, none⟩

/-- A transport oracle that succeeds with an empty dict (`{}`), as
`_make_request` returns for an HTTP 204 body. -/
def trEmptyDict : Transport Nat := fun _ => ⟨true, some [], none⟩

/-- A transport oracle that succeeds with empty collections under the
`values` and `issues` keys. -/
def trZero : Transport Nat := fun _ => ⟨true, some [("values", []), ("issues", [])], none⟩

/-- A generator oracle whose pipeline call always raises. -/
def genErr : String → Except String String := fun _ => Except.error "RuntimeError"

/-! ## Helper lemmas -/

theorem foldl_addMessage_eq (msgs : List ChatMessage) :
    msgs.foldl addMessage [] = msgs.drop (msgs.length - maxHistory) := by
  induction msgs using List.reverseRecOn with
  | nil => rfl
  | append_singleton ms m ih =>
    rw [List.foldl_append, List.foldl_cons, List.foldl_nil, ih]
    simp only [addMessage, maxHistory, List.length_append, List.length_cons,
      List.length_nil, List.length_drop]
    by_cases hL : 10 ≤ ms.length
    · rw [if_pos (by omega)]
      rw [show ms.length - (ms.length - 10) + (0 + 1) - 10 = 1 by omega]
      rw [List.drop_append_of_le_length (by rw [List.length_drop]; omega)]
      rw [List.drop_drop]
      rw [List.drop_append_of_le_length (by omega)]
      congr 2
      omega
    · rw [if_neg (by omega)]
      rw [show ms.length - 10 = 0 by omega, show ms.length + (0 + 1) - 10 = 0 by omega]
      rw [List.drop_zero, List.drop_zero]

/-- C3: the bounded-log invariant of `ChatbotCore.add_message`. -/
theorem conversation_log_bounded (msgs : List ChatMessage) :
    msgs.foldl addMessage [] = msgs.drop (msgs.length - maxHistory)
    ∧ (msgs.foldl addMessage []).length ≤ maxHistory := by
  refine ⟨foldl_addMessage_eq msgs, ?_⟩
  rw [foldl_addMessage_eq msgs, List.length_drop, maxHistory]
  omega

/-- C8: the round trip through the store — a user turn then an assistant
turn render as the two `role: text` lines; an empty log renders as `""`. -/
theorem recent_context_round_trip (t1 t2 ts1 ts2 : String) (m1 m2 : Option RespMeta) :
    getConversationContext
        (addMessage (addMessage [] ⟨"user", t1, ts1, m1⟩) ⟨"assistant", t2, ts2, m2⟩)
      = "user: " ++ t1 ++ "\n" ++ "assistant: " ++ t2
    ∧ getConversationContext [] = "" := by
  constructor
  · simp only [addMessage, maxHistory, List.nil_append, List.length_cons, List.length_nil]
    norm_num
    simp only [getConversationContext, List.isEmpty_cons, List.length_cons, List.length_nil,
      List.cons_append, List.nil_append]
    norm_num
    simp only [List.drop, List.map, pyJoin]
    rw [show ("user: " : String) = "user" ++ ": " from rfl,
      show ("assistant: " : String) = "assistant" ++ ": " from rfl]
    simp only [String.append_assoc]
  · rfl

/-- C7: a query carrying an update keyword and none of the higher-priority
list/create keywords is routed to the update handler of its entity kind,
which returns the fixed not-implemented Failure and performs no transport
call (the result does not depend on the transport oracle `tr`). -/
theorem update_handlers_always_fail {Item : Type} (tr : Transport Item) (q : String)
    (hupd : (pyIn "update" (lowerStr q) || pyIn "modify" (lowerStr q)
      || pyIn "change" (lowerStr q)) = true)
    (hnl : (pyIn "list" (lowerStr q) || pyIn "show" (lowerStr q)
      || pyIn "get all" (lowerStr q)) = false)
    (hnc : (pyIn "create" (lowerStr q) || pyIn "add" (lowerStr q)
      || pyIn "new" (lowerStr q)) = false) :
    handleEpicQuery tr q
        = Except.ok (HandlerResult.err (some "Epic update requires additional parameters")
            "To update an epic, please provide: epic key and fields to update", [])
    ∧ handleSprintQuery tr q
        = Except.ok (HandlerResult.err (some "Sprint update requires additional parameters")
            "To update a sprint, please provide: sprint ID and fields to update", []) := by
  constructor
  · simp [handleEpicQuery, handleUpdateEpic, hupd, hnl, hnc]
  · simp [handleSprintQuery, handleUpdateSprint, hupd, hnl, hnc]

/-- Witness for C7 at the concrete query `"update epic please"`. -/
theorem update_handlers_always_fail_witness :
    handleEpicQuery trNone "update epic please"
        = Except.ok (HandlerResult.err (some "Epic update requires additional parameters")
            "To update an epic, please provide: epic key and fields to update", [])
    ∧ handleSprintQuery trNone "update epic please"
        = Except.ok (HandlerResult.err (some "Sprint update requires additional parameters")
            "To update a sprint, please provide: sprint ID and fields to update", []) :=
  update_handlers_always_fail trNone "update epic please" (by decide) (by decide) (by decide)

/-- C9: `handle_epic_query` and `handle_sprint_query` route by the fixed
verb precedence list > create > update > get, computed by `routedVerb`. -/
theorem dispatch_verb_precedence {Item : Type} (tr : Transport Item) (q : String) :
    handleEpicQuery tr q
        = (match routedVerb q with
          | Verb.list => Except.ok (handleListEpics tr q)
          | Verb.create => handleCreateEpic tr q
          | Verb.update => Except.ok (handleUpdateEpic q)
          | Verb.get => Except.ok (handleGetEpic tr q))
    ∧ handleSprintQuery tr q
        = (match routedVerb q with
          | Verb.list => Except.ok (handleListSprints tr q)
          | Verb.create => handleCreateSprint tr q
          | Verb.update => Except.ok (handleUpdateSprint q)
          | Verb.get => Except.ok (handleGetSprint tr q)) := by
  cases h1 : (pyIn "list" (lowerStr q) || pyIn "show" (lowerStr q)
      || pyIn "get all" (lowerStr q)) <;>
    cases h2 : (pyIn "create" (lowerStr q) || pyIn "add" (lowerStr q)
      || pyIn "new" (lowerStr q)) <;>
    cases h3 : (pyIn "update" (lowerStr q) || pyIn "modify" (lowerStr q)
      || pyIn "change" (lowerStr q)) <;>
    constructor <;>
    simp [handleEpicQuery, handleSprintQuery, routedVerb, h1, h2, h3]

/-- C10: `_handle_get_epic` recognises an identifier exactly when some
whitespace token of the query, uppercased, starts with `EPIC-` or
`PROJ-`; with no such token (e.g. an issue key `DEMO-123` of any other
project prefix) it returns the missing-identifier Failure and performs no
transport call. -/
theorem get_epic_requires_key {Item : Type} (tr : Transport Item) (q : String) :
    (epicKeyOf q = none →
      handleGetEpic tr q
        = (HandlerResult.err (some "No epic key found in query")
            "Please specify an epic key (e.g., EPIC-123)", []))
    ∧ (epicKeyOf q = none ↔ ∀ w ∈ splitWs q,
        ¬((pyStartsWith (upperStr w) "EPIC-" || pyStartsWith (upperStr w) "PROJ-") = true))
    ∧ handleGetEpic tr "Get epic DEMO-123"
        = (HandlerResult.err (some "No epic key found in query")
            "Please specify an epic key (e.g., EPIC-123)", []) := by
  refine ⟨fun h => by simp [handleGetEpic, h], ?_, ?_⟩
  · rw [epicKeyOf, Option.map_eq_none']
    exact List.find?_eq_none
  · have h : epicKeyOf "Get epic DEMO-123" = none := by decide
    simp [handleGetEpic, h]

/-- Witness for C10 at the query `"Get epic DEMO-123"`. -/
theorem get_epic_requires_key_witness :
    handleGetEpic trNone "Get epic DEMO-123"
      = (HandlerResult.err (some "No epic key found in query")
          "Please specify an epic key (e.g., EPIC-123)", []) :=
  (get_epic_requires_key trNone "Get epic DEMO-123").1 (by decide)

/-- C2 (failing input): on the query `"Create epic"` — spec Scenario B —
`_handle_create_epic` raises `IndexError` instead of returning the guided
MissingRequiredField Failure: the lowered query passes the
`"create epic" in query_lower` guard, but `query.split("create epic")[1]`
splits the original-cased text, finds no occurrence, and indexes out of
range.  On the all-lowercase variant the guided Failure is produced, and
`_handle_create_sprint` has the same defect.  No transport call happens on
any of these paths. -/
theorem create_handlers_crash_on_cased_query {Item : Type} (tr : Transport Item) :
    handleCreateEpic tr "Create epic" = Except.error "IndexError: list index out of range"
    ∧ handleCreateEpic tr "create epic"
        = Except.ok (HandlerResult.err (some "Project key required")
            "To create an epic, please specify a project key. Example: \x27Create epic in PROJECT-123 with title My Epic\x27", [])
    ∧ handleCreateSprint tr "Create sprint Alpha"
        = Except.error "IndexError: list index out of range" := by
  refine ⟨?_, ?_, ?_⟩ <;> rfl

/-- C5 counterexample: the claim "a Failure is returned only when the
transport call itself fails" is false — a successful transport response
whose data dict is `{}` (as `_make_request` produces for an empty HTTP
body) makes the returned `values` collection empty, yet
`_handle_list_sprints` answers with the `mcp_error` Failure because
`response.success and response.data` tests the dict for Python truthiness. -/
theorem list_sprints_empty_dict_failure :
    (trEmptyDict (TransportCall.getSprints none)).success = true
    ∧ dictGetList ((trEmptyDict (TransportCall.getSprints none)).data.getD []) "values" = []
    ∧ handleListSprints trEmptyDict "Show me all sprints"
        = (HandlerResult.err none "Failed to retrieve sprints", [TransportCall.getSprints none])
    ∧ (handleListSprints trEmptyDict "Show me all sprints").1.isErr = true := by
  refine ⟨rfl, rfl, rfl, rfl⟩

/-- C5 (amended): when the transport call succeeds and the returned data
dict is non-empty and its collection field is empty, the list handlers
return Success with an empty payload and a "Found 0 ..." message; the
Failure shape is produced exactly when the transport call fails or its
data dict is absent or empty. -/
theorem list_handlers_empty_collection {Item : Type} (tr : Transport Item) (q : String) :
    (∀ d : List (String × List Item),
      (tr (TransportCall.getSprints none)).success = true →
      (tr (TransportCall.getSprints none)).data = some d →
      d ≠ [] → dictGetList d "values" = [] →
      handleListSprints tr q
        = (HandlerResult.ok "sprint_list" (HData.items []) "Found 0 sprints",
           [TransportCall.getSprints none]))
    ∧ (∀ d : List (String × List Item),
      (tr (TransportCall.getEpics none)).success = true →
      (tr (TransportCall.getEpics none)).data = some d →
      d ≠ [] → dictGetList d "issues" = [] →
      handleListEpics tr q
        = (HandlerResult.ok "epic_list" (HData.items []) "Found 0 epics",
           [TransportCall.getEpics none]))
    ∧ ((handleListSprints tr q).1.isErr = true
        ↔ ((tr (TransportCall.getSprints none)).success
            && dataTruthy (tr (TransportCall.getSprints none)).data) = false)
    ∧ ((handleListEpics tr q).1.isErr = true
        ↔ ((tr (TransportCall.getEpics none)).success
            && dataTruthy (tr (TransportCall.getEpics none)).data) = false) := by
  refine ⟨?_, ?_, ?_, ?_⟩
  · intro d hs hd hne hv
    simp [handleListSprints, hs, hd, hv, dataTruthy, hne]
    rfl
  · intro d hs hd hne hv
    simp [handleListEpics, hs, hd, hv, dataTruthy, hne]
    rfl
  · unfold handleListSprints
    cases hc : ((tr (TransportCall.getSprints none)).success
        && dataTruthy (tr (TransportCall.getSprints none)).data) <;>
      simp [hc, HandlerResult.isErr]
  · unfold handleListEpics
    cases hc : ((tr (TransportCall.getEpics none)).success
        && dataTruthy (tr (TransportCall.getEpics none)).data) <;>
      simp [hc, HandlerResult.isErr]

/-- Witness for C5 at a transport returning `{"values": [], "issues": []}`. -/
theorem list_handlers_empty_collection_witness :
    handleListSprints trZero "Show me all sprints"
      = (HandlerResult.ok "sprint_list" (HData.items []) "Found 0 sprints",
         [TransportCall.getSprints none]) :=
  (list_handlers_empty_collection trZero "Show me all sprints").1
    [("values", []), ("issues", [])] rfl rfl (by decide) rfl

/-- C6 counterexample: create-parameter extraction is not
field-independent.  On `"project DEMO create epic Fix login"` the joint
extractor finds the project key by its marker and therefore never
attempts the split-on-`"create epic"` strategy for the summary — although
that strategy, run on its own as the independence claim requires, would
have produced a summary — so the create handler fails with "Epic summary
required". -/
theorem extraction_not_independent :
    extractEpicParams "project DEMO create epic Fix login"
      = Except.ok (some "DEMO", none)
    ∧ epicSplitFallback "project DEMO create epic Fix login" none none
        = Except.ok (some "FIX", some "login")
    ∧ handleCreateEpic trNone "project DEMO create epic Fix login"
        = Except.ok (HandlerResult.err (some "Epic summary required")
            "To create an epic, please provide a summary/title. Example: \x27Create epic in PROJECT-123 with title My Epic\x27", []) := by
  refine ⟨rfl, rfl, rfl⟩

/-- C6 (amended): per field, the marker strategies are tried in a fixed
priority order stopping at the field\x27s first success, and the marker
scans of the two fields are independent; but the final
split-on-action-phrase fallback is shared — it runs only when both fields
are still falsy and can assign both at once — so finding one field
suppresses that last strategy for the other field. -/
theorem extraction_priority_order (q : String) :
    ((truthyOptStr (epicMarkerPK q) = true ∨ truthyOptStr (epicMarkerSummary q) = true) →
      extractEpicParams q = Except.ok (epicMarkerPK q, epicMarkerSummary q))
    ∧ (truthyOptStr (epicMarkerPK q) = false → truthyOptStr (epicMarkerSummary q) = false →
      extractEpicParams q = epicSplitFallback q (epicMarkerPK q) (epicMarkerSummary q))
    ∧ (∀ k, pyIn "project" (lowerStr q) = true →
      nextAfterMarker "project" (splitWs q) = some k → epicMarkerPK q = some (upperStr k))
    ∧ ((truthyOptStr (sprintMarkerName q) = true ∨ truthyOptInt (sprintMarkerBoard q) = true) →
      extractSprintParams q = Except.ok (sprintMarkerName q, sprintMarkerBoard q))
    ∧ (truthyOptStr (sprintMarkerName q) = false → truthyOptInt (sprintMarkerBoard q) = false →
      extractSprintParams q = sprintSplitFallback q (sprintMarkerName q) (sprintMarkerBoard q))
    ∧ (∀ n, pyIn "board" (lowerStr q) = true →
      boardIdAfter (splitWs q) = some n → n ≠ 0 → sprintMarkerBoard q = some n) := by
  refine ⟨?_, ?_, ?_, ?_, ?_, ?_⟩
  · intro h
    rcases h with h | h <;> simp [extractEpicParams, h]
  · intro h1 h2
    simp [extractEpicParams, h1, h2]
  · intro k hg hn
    simp [epicMarkerPK, hg, hn]
  · intro h
    rcases h with h | h <;> simp [extractSprintParams, h]
  · intro h1 h2
    simp [extractSprintParams, h1, h2]
  · intro n hg hn hnz
    simp [sprintMarkerBoard, hg, hn, truthyOptInt, hnz]

/-- Witness for C6 at `"project DEMO title Fix"`: both marker scans
succeed and the extractor returns exactly their two results. -/
theorem extraction_priority_order_witness :
    extractEpicParams "project DEMO title Fix" = Except.ok (some "DEMO", some "Fix") := by
  have h := (extraction_priority_order "project DEMO title Fix").1 (Or.inl (by decide))
  rw [h]
  rfl

theorem classifyAux_lookup_none (ql label : String) :
    ∀ tbl : List (String × List String), (∀ p ∈ tbl, p.1 ≠ label) →
      (classifyAux ql tbl).lookup label = none := by
  intro tbl
  induction tbl with
  | nil => intro _; rfl
  | cons p rest ih =>
    intro h
    obtain ⟨intent, kws⟩ := p
    have hne : intent ≠ label := h (intent, kws) (by simp)
    have hr : ∀ p ∈ rest, p.1 ≠ label := fun p hp => h p (by simp [hp])
    have hbeq : (label == intent) = false := beq_eq_false_iff_ne.mpr (Ne.symm hne)
    by_cases hs : 0 < scoreOf ql kws
    · simp [classifyAux, if_pos hs, List.lookup_cons, hbeq, ih hr]
    · simp [classifyAux, if_neg hs, ih hr]

theorem classifyAux_lookup (ql label : String) (kws : List String) :
    ∀ tbl : List (String × List String), (tbl.map Prod.fst).Nodup → (label, kws) ∈ tbl →
      (classifyAux ql tbl).lookup label
        = if 0 < scoreOf ql kws
          then some ((scoreOf ql kws : ℚ) / (kws.length : ℚ)) else none := by
  intro tbl
  induction tbl with
  | nil => intro _ h; simp at h
  | cons p rest ih =>
    intro hnd hmem
    obtain ⟨intent, kws2⟩ := p
    rw [List.map_cons, List.nodup_cons] at hnd
    rcases List.mem_cons.mp hmem with heq | hmem2
    · cases heq
      have hrestnone : (classifyAux ql rest).lookup label = none := by
        refine classifyAux_lookup_none ql label rest (fun p hp hc => ?_)
        refine hnd.1 ?_
        rw [← hc]
        exact List.mem_map.mpr ⟨p, hp, rfl⟩
      by_cases hs : 0 < scoreOf ql kws
      · simp [classifyAux, if_pos hs, List.lookup_cons, hs]
      · simp [classifyAux, if_neg hs, hrestnone, hs]
    · have hne : intent ≠ label := by
        intro hc
        refine hnd.1 ?_
        rw [hc]
        exact List.mem_map.mpr ⟨(label, kws), hmem2, rfl⟩
      have hbeq : (label == intent) = false := beq_eq_false_iff_ne.mpr (Ne.symm hne)
      have hrest := ih hnd.2 hmem2
      by_cases hs2 : 0 < scoreOf ql kws2
      · simp [classifyAux, if_pos hs2, List.lookup_cons, hbeq, hrest]
      · simp [classifyAux, if_neg hs2, hrest]

theorem classifyAux_mem_bound (ql : String) :
    ∀ (tbl : List (String × List String)) p, p ∈ classifyAux ql tbl → 0 < p.2 ∧ p.2 ≤ 1 := by
  intro tbl
  induction tbl with
  | nil => intro p hp; simp [classifyAux] at hp
  | cons hd rest ih =>
    intro p hp
    obtain ⟨intent, kws⟩ := hd
    by_cases hs : 0 < scoreOf ql kws
    · simp only [classifyAux, if_pos hs, List.cons_append, List.nil_append,
        List.mem_cons] at hp
      rcases hp with rfl | hp
      · have hlen : 0 < kws.length := lt_of_lt_of_le hs (List.length_filter_le _ _)
        constructor
        · exact div_pos (by exact_mod_cast hs) (by exact_mod_cast hlen)
        · rw [div_le_one (by exact_mod_cast hlen)]
          exact_mod_cast List.length_filter_le _ _
      · exact ih p hp
    · simp only [classifyAux, if_neg hs, List.nil_append] at hp
      exact ih p hp

theorem scoreOf_pos_of_kw (ql kw : String) (kws : List String) (hmem : kw ∈ kws)
    (hin : pyIn kw ql = true) : 0 < scoreOf ql kws := by
  have hf : kw ∈ kws.filter (fun k => pyIn k ql) := List.mem_filter.mpr ⟨hmem, hin⟩
  exact List.length_pos.mpr (List.ne_nil_of_mem hf)

/-- C4: `classify_intent` emits, for each table label, exactly
matched-count / keyword-count when the count is positive and omits the
label otherwise; every emitted score lies in (0, 1]; a query containing a
full keyword of a label scores that label positively; the empty query
yields the empty map. -/
theorem classifier_characterization (q label : String) (kws : List String)
    (hmem : (label, kws) ∈ intentKeywords) :
    ((classifyIntent q).lookup label
        = if 0 < scoreOf (lowerStr q) kws
          then some ((scoreOf (lowerStr q) kws : ℚ) / (kws.length : ℚ)) else none)
    ∧ (∀ p ∈ classifyIntent q, 0 < p.2 ∧ p.2 ≤ 1)
    ∧ (∀ kw ∈ kws, pyIn kw (lowerStr q) = true →
        ∃ s, (classifyIntent q).lookup label = some s ∧ 0 < s)
    ∧ classifyIntent "" = [] := by
  have hnd : (intentKeywords.map Prod.fst).Nodup := by decide
  refine ⟨classifyAux_lookup (lowerStr q) label kws intentKeywords hnd hmem,
    fun p hp => classifyAux_mem_bound (lowerStr q) intentKeywords p hp, ?_, by decide⟩
  intro kw hkw hin
  have hs := scoreOf_pos_of_kw (lowerStr q) kw kws hkw hin
  have hlen : 0 < kws.length := lt_of_lt_of_le hs (List.length_filter_le _ _)
  refine ⟨(scoreOf (lowerStr q) kws : ℚ) / (kws.length : ℚ), ?_, ?_⟩
  · rw [show (classifyIntent q).lookup label
        = (classifyAux (lowerStr q) intentKeywords).lookup label from rfl,
      classifyAux_lookup (lowerStr q) label kws intentKeywords hnd hmem, if_pos hs]
  · exact div_pos (by exact_mod_cast hs) (by exact_mod_cast hlen)

/-- Witness for C4 at the query `"create a sprint"` and label `"sprint"`. -/
theorem classifier_characterization_witness :
    (classifyIntent "create a sprint").lookup "sprint" = some (1 / 5) := by
  have h := (classifier_characterization "create a sprint" "sprint"
    ["sprint", "sprints", "iteration", "sprint planning", "agile"] (by decide)).1
  rw [h, show scoreOf (lowerStr "create a sprint")
    ["sprint", "sprints", "iteration", "sprint planning", "agile"] = 1 from by decide]
  norm_num

theorem fallbackResponse_ne_empty (p : String) : fallbackResponse p ≠ "" := by
  simp only [fallbackResponse]
  split_ifs <;> decide

set_option maxHeartbeats 1000000 in
theorem generateResponse_spec (pipelineOk : Bool) (gen : String → Except String String)
    (prompt context : String) :
    generateResponse pipelineOk gen prompt context ≠ ""
    ∧ (∀ e, gen (formatPrompt prompt context) = Except.error e →
        generateResponse pipelineOk gen prompt context = fallbackResponse prompt)
    ∧ (gen (formatPrompt prompt context) = Except.ok "" →
        generateResponse pipelineOk gen prompt context = fallbackResponse prompt)
    ∧ (pipelineOk = false →
        generateResponse pipelineOk gen prompt context = fallbackResponse prompt) := by
  cases pipelineOk
  · simp [generateResponse, fallbackResponse_ne_empty]
  · rcases hg : gen (formatPrompt prompt context) with e | g
    · simp [generateResponse, hg, fallbackResponse_ne_empty]
    · have hmk : String.mk [] = "" := rfl
      have hcr : cleanResponse (pyStrip "") = "" := rfl
      refine ⟨?_, ?_, ?_, ?_⟩
      · simp only [generateResponse, hg]
        split_ifs <;> first | assumption | exact fallbackResponse_ne_empty prompt
      · intro e he
        exact absurd he (by simp)
      · intro he
        have hge : g = "" := by injection he
        subst hge
        simp only [generateResponse, hg]
        cases hps : pyStartsWith "" (formatPrompt prompt context) <;>
          simp [hps, strDrop, List.drop_nil, hmk, hcr]
      · intro hfalse
        exact absurd hfalse (by simp)

/-- C1: `process_query` always yields a response envelope whose message is
the generator output guarded by the rule-based fallback: the message is
never empty, and on a generator exception, on empty generator output, or
with no pipeline loaded it is exactly the canned fallback text — the
request is never aborted (classification, context assembly and history
update are total by construction). -/
theorem process_query_never_aborts (pipelineOk : Bool) (gen : String → Except String String)
    (hist : List ChatMessage) (input : String) (ec : Option String) (ts1 ts2 : String) :
    ((processQuery pipelineOk gen hist input ec ts1 ts2).1.message
        = generateResponse pipelineOk gen input (fullContextOf hist input ec ts1))
    ∧ (processQuery pipelineOk gen hist input ec ts1 ts2).1.message ≠ ""
    ∧ (∀ e, gen (formatPrompt input (fullContextOf hist input ec ts1)) = Except.error e →
        (processQuery pipelineOk gen hist input ec ts1 ts2).1.message = fallbackResponse input)
    ∧ (gen (formatPrompt input (fullContextOf hist input ec ts1)) = Except.ok "" →
        (processQuery pipelineOk gen hist input ec ts1 ts2).1.message = fallbackResponse input)
    ∧ (pipelineOk = false →
        (processQuery pipelineOk gen hist input ec ts1 ts2).1.message = fallbackResponse input) := by
  have hmsg : (processQuery pipelineOk gen hist input ec ts1 ts2).1.message
      = generateResponse pipelineOk gen input (fullContextOf hist input ec ts1) := rfl
  have hspec := generateResponse_spec pipelineOk gen input (fullContextOf hist input ec ts1)
  refine ⟨hmsg, ?_, ?_, ?_, ?_⟩
  · rw [hmsg]; exact hspec.1
  · intro e he
    rw [hmsg]; exact hspec.2.1 e he
  · intro he
    rw [hmsg]; exact hspec.2.2.1 he
  · intro hp
    rw [hmsg]; exact hspec.2.2.2 hp

/-- Witness for C1: a generator that always raises yields the canned
fallback text. -/
theorem process_query_never_aborts_witness :
    (processQuery true genErr [] "hello" none "t1" "t2").1.message
      = fallbackResponse "hello" :=
  (process_query_never_aborts true genErr [] "hello" none "t1" "t2").2.2.1 "RuntimeError" rfl
